import Mathlib

/-!
# Verification of the google-drive-rag ingestion/retrieval pipeline

Shallow embedding of the Python sources `document_loader.py`,
`vector_store.py`, `rag_chain.py` (the code regions the claims cite).

Conventions of the embedding:
* Python `dict[str, scalar]` metadata mappings become `Dict`, an association
  list without duplicate keys in practice; `Dict.set` models Python item
  assignment (`d[k] = v`: replace in place if the key exists, else append,
  preserving Python 3.7+ insertion order) and `Dict.update` models
  `d.update(m)`.
* Scalar metadata values become `MVal` (strings and naturals).
* `uuid.uuid4()` calls are modelled by an injected supply `genId : Nat → String`
  indexed by the order in which the code draws fresh ids.
* External collaborators (the embedding model, the Supabase RPC/insert calls,
  the RetrievalQA chain) are injected as parameters; fallible calls return
  `Except String _`, and a Python `try/except Exception` block becomes a
  `match` on the `Except` value of its body.
* Embedding vectors are never inspected, only carried; they are `List Int`
  stand-ins produced by the injected embedding function.
-/

/-- A scalar metadata value: Python strings and non-negative ints
(chunk_index / total_chunks). -/
inductive MVal where
  | str : String → MVal
  | nat : Nat → MVal
deriving DecidableEq, BEq, Repr

/-- A Python `dict[str, scalar]` as an insertion-ordered association list. -/
def Dict : Type := List (String × MVal)

instance : DecidableEq Dict := by unfold Dict; infer_instance

instance : BEq Dict := by unfold Dict; infer_instance

instance : Repr Dict := by unfold Dict; infer_instance

instance : Membership (String × MVal) Dict := by unfold Dict; infer_instance

/-- `d[k]` lookup (first — in practice only — binding of `k`). -/
def Dict.get? (d : Dict) (k : String) : Option MVal :=
  match d with
  | [] => none
  | (k', v') :: rest => if k' = k then some v' else Dict.get? rest k

/-- Python item assignment `d[k] = v`: replace the existing binding in place,
else append at the end (insertion order). -/
def Dict.set (d : Dict) (k : String) (v : MVal) : Dict :=
  match d with
  | [] => [(k, v)]
  | (k', v') :: rest => if k' = k then (k, v) :: rest else (k', v') :: Dict.set rest k v

/-- Python `d.update(m)`: assign every binding of `m` into `d`, in order. -/
def Dict.update (d m : Dict) : Dict :=
  m.foldl (fun acc kv => acc.set kv.1 kv.2) d

/-- Keys of the mapping. -/
def Dict.keys (d : Dict) : List String :=
  d.map Prod.fst

/-- Python truthiness of a dict: `if d:` is false exactly for the empty dict. -/
def Dict.truthy (d : Dict) : Bool :=
  !d.isEmpty

/-- Python truthiness of an `Optional[dict]` value (`None` and `{}` are falsy). -/
def pyTruthyDict (d : Option Dict) : Bool :=
  match d with
  | none => false
  | some d => d.truthy

theorem Dict.get?_set_self (d : Dict) (k : String) (v : MVal) :
    (d.set k v).get? k = some v := by
  induction d with
  | nil => simp [Dict.set, Dict.get?]
  | cons kv rest ih =>
    by_cases h : kv.1 = k <;> simp [Dict.set, Dict.get?, h, ih]

theorem Dict.get?_set_ne (d : Dict) {k k' : String} (v : MVal) (h : k ≠ k') :
    (d.set k v).get? k' = d.get? k' := by
  induction d with
  | nil => simp [Dict.set, Dict.get?, h]
  | cons kv rest ih =>
    by_cases hk : kv.1 = k
    · simp [Dict.set, Dict.get?, hk, h]
    · simp [Dict.set, Dict.get?, hk, ih]

theorem Dict.update_cons (d : Dict) (kv : String × MVal) (m : List (String × MVal)) :
    Dict.update d (kv :: m) = Dict.update (d.set kv.1 kv.2) m := by
  simp [Dict.update, List.foldl_cons]

theorem Dict.update_nil (d : Dict) : Dict.update d [] = d := rfl

/-- `d.update m` leaves keys outside `m` untouched. -/
theorem Dict.get?_update_not_mem (d : Dict) (m : Dict) {k : String}
    (h : k ∉ m.keys) : (Dict.update d m).get? k = d.get? k := by
  induction m generalizing d with
  | nil => simp [Dict.update_nil]
  | cons kv rest ih =>
    simp only [Dict.keys, List.map_cons, List.mem_cons] at h
    push_neg at h
    rw [Dict.update_cons, ih _ (by simpa [Dict.keys] using h.2),
      Dict.get?_set_ne _ _ (fun hE => h.1 hE.symm)]

/-- If `m` binds `k` (uniquely: `m` has no duplicate keys, as every Python dict),
then after `d.update m` the key `k` holds `m`'s value. -/
theorem Dict.get?_update_of_get? (d : Dict) (m : Dict) {k : String} {v : MVal}
    (hnd : m.keys.Nodup) (h : m.get? k = some v) :
    (Dict.update d m).get? k = some v := by
  induction m generalizing d with
  | nil => simp [Dict.get?] at h
  | cons kv rest ih =>
    simp only [Dict.keys, List.map_cons, List.nodup_cons] at hnd
    rw [Dict.update_cons]
    by_cases hk : kv.1 = k
    · simp only [Dict.get?, if_pos hk] at h
      subst hk
      rw [Dict.get?_update_not_mem _ _ (by simpa [Dict.keys] using hnd.1),
        Dict.get?_set_self]
      simpa using h
    · simp only [Dict.get?, if_neg hk] at h
      exact ih _ hnd.2 h

/-! ## `vector_store.py`, lines 103–108: filter resolution on the read path

```python
if filter:
    if "type" not in filter:
        filter["type"] = "upload_file"
else:
    filter = {"type": "upload_file"}
```

`resolve_filter` (the spec's name for this inline block) gives the mapping the
code goes on to pass to the `match_documents` RPC. Because
`filter["type"] assignment` mutates the dict object the caller passed in, while
`filter = {...}` merely rebinds the local name, the state of the *caller's*
object after the block is modelled separately by `caller_filter_after`. -/

/-- The resolved filter used for the similarity query
(`vector_store.py` lines 103–108). -/
def resolve_filter (filter : Option Dict) : Dict :=
  if pyTruthyDict filter then
    let f := filter.getD []
    if (f.get? "type").isNone then f.set "type" (.str "upload_file") else f
  else
    [("type", .str "upload_file")]

/-- State of the caller's filter object after `vector_store.py` lines 103–108:
`filter["type"] = "upload_file"` mutates the caller's dict in place, whereas
the `else` branch only rebinds the local name, leaving the caller's object
(if any) untouched. -/
def caller_filter_after (filter : Option Dict) : Option Dict :=
  match filter with
  | none => none
  | some f =>
    if f.truthy then
      if (f.get? "type").isNone then some (f.set "type" (.str "upload_file")) else some f
    else
      some f

/-- C6: the three resolution cases of the read-path filter defaulting. -/
theorem resolve_filter_cases :
    resolve_filter none = [("type", .str "upload_file")] ∧
    resolve_filter (some [("storage_type", .str "Local")]) =
      [("storage_type", .str "Local"), ("type", .str "upload_file")] ∧
    resolve_filter (some [("type", .str "custom")]) = [("type", .str "custom")] := by
  refine ⟨rfl, ?_, ?_⟩ <;> rfl

/-- C7 counterexample: for the caller filter `{"storage_type": "Local"}` (which
lacks the `"type"` key), the caller's object is NOT left unmodified — the code
mutates it in place, so after the search it has gained the `"type"` binding. -/
theorem caller_filter_mutated_counterexample :
    ¬ (caller_filter_after (some [("storage_type", .str "Local")]) =
        some [("storage_type", .str "Local")]) := by
  decide

/-- C7 amended: for every non-empty caller filter lacking the `"type"` key, the
read path injects `type="upload_file"` by mutating the caller's mapping in
place (no copy is made): after the search the caller's object is exactly the
resolved filter, `"type"` binding included. -/
theorem caller_filter_after_mutates (f : Dict)
    (htru : f.truthy = true) (hty : (f.get? "type").isNone = true) :
    caller_filter_after (some f) = some (f.set "type" (.str "upload_file")) ∧
    caller_filter_after (some f) = some (resolve_filter (some f)) ∧
    Dict.get? ((caller_filter_after (some f)).getD []) "type" = some (.str "upload_file") := by
  refine ⟨?_, ?_, ?_⟩
  · simp [caller_filter_after, htru, hty]
  · simp [caller_filter_after, resolve_filter, pyTruthyDict, htru, hty]
  · simp [caller_filter_after, htru, hty, Dict.get?_set_self]

/-- Witness for `caller_filter_after_mutates` at the filter
`{"storage_type": "Local"}`. -/
theorem caller_filter_after_mutates_witness :
    caller_filter_after (some [("storage_type", .str "Local")]) =
      some [("storage_type", .str "Local"), ("type", .str "upload_file")] :=
  (caller_filter_after_mutates [("storage_type", .str "Local")]
    (by decide) (by decide)).1

/-! ## `document_loader.py`: loading and chunking

A langchain `Document` is a text payload plus a metadata dict. -/

/-- `langchain.schema.Document` as used by the loader/chunker write path. -/
structure Document where
  page_content : String
  metadata : Dict
deriving DecidableEq, BEq, Repr

/-- The metadata layer of `DocumentProcessor.load_document`
(`document_loader.py` lines 46–53): one fresh `doc_id` per file, written into
every loaded segment together with provenance fields, via
`doc.metadata.update(...)` in the literal order id, source, file_name,
file_type. -/
def load_document_metadata (docId filePath fileName fileType : String)
    (m : Dict) : Dict :=
  m.update [("id", .str docId), ("source", .str filePath),
    ("file_name", .str fileName), ("file_type", .str fileType)]

/-- `RecursiveCharacterTextSplitter.split_documents` (external library call at
`document_loader.py` line 70), parameterised by the per-document text-splitting
policy `splitText`: each input document yields its chunk texts in order, every
chunk receiving a copy of the parent document metadata, and the per-document
chunk lists are concatenated in input order. The boundary policy itself is
outside the repository; no claim here depends on it. -/
def split_documents (splitText : String → List String)
    (documents : List Document) : List Document :=
  documents.flatMap fun d =>
    (splitText d.page_content).map fun t => { page_content := t, metadata := d.metadata }

/-- The chunk-information loop of `DocumentProcessor.process_documents`
(`document_loader.py` lines 73–79): `for i, chunk in enumerate(chunks)`,
updating each chunk metadata with `chunk_id` (a fresh uuid4, the `i`-th draw of
the supply), `chunk_index = i` and `total_chunks = len(chunks)`, in that
literal order. -/
def addChunkInfo (genId : Nat → String) (total : Nat) :
    List Document → Nat → List Document
  | [], _ => []
  | c :: rest, i =>
    { c with metadata :=
        ((c.metadata.set "chunk_id" (.str (genId i))).set "chunk_index"
          (.nat i)).set "total_chunks" (.nat total) } ::
      addChunkInfo genId total rest (i + 1)

/-- `DocumentProcessor.process_documents` (`document_loader.py` lines 60–84):
optionally update every document's metadata with the caller-supplied tags
(`if metadata:` — Python truthiness, skipped for `None` and `{}`), split the
whole batch, then run the chunk-information loop over the combined chunk list.
The `except` branch of the method is dead in this embedding because the body
is total. -/
def process_documents (genId : Nat → String) (splitText : String → List String)
    (documents : List Document) (metadata : Option Dict) : List Document :=
  let documents :=
    if pyTruthyDict metadata then
      documents.map fun d => { d with metadata := d.metadata.update (metadata.getD []) }
    else documents
  let chunks := split_documents splitText documents
  addChunkInfo genId chunks.length chunks 0

theorem Dict.get?_chunkInfo_index (m : Dict) (cid : String) (i total : Nat) :
    (((m.set "chunk_id" (.str cid)).set "chunk_index" (.nat i)).set
      "total_chunks" (.nat total)).get? "chunk_index" = some (.nat i) := by
  rw [Dict.get?_set_ne _ _ (by decide), Dict.get?_set_self]

theorem Dict.get?_chunkInfo_total (m : Dict) (cid : String) (i total : Nat) :
    (((m.set "chunk_id" (.str cid)).set "chunk_index" (.nat i)).set
      "total_chunks" (.nat total)).get? "total_chunks" = some (.nat total) := by
  rw [Dict.get?_set_self]

theorem addChunkInfo_length (genId : Nat → String) (total : Nat) :
    ∀ (l : List Document) (k : Nat), (addChunkInfo genId total l k).length = l.length := by
  intro l
  induction l with
  | nil => intro k; rfl
  | cons c rest ih => intro k; simp [addChunkInfo, ih]

theorem addChunkInfo_map_index (genId : Nat → String) (total : Nat) :
    ∀ (l : List Document) (k : Nat),
      (addChunkInfo genId total l k).map (fun c => c.metadata.get? "chunk_index") =
        (List.range' k l.length).map (fun i => some (.nat i)) := by
  intro l
  induction l with
  | nil => intro k; rfl
  | cons c rest ih =>
    intro k
    rw [List.length_cons, List.range'_succ]
    simp only [addChunkInfo, List.map_cons, Dict.get?_chunkInfo_index]
    rw [ih (k + 1)]

theorem addChunkInfo_map_total (genId : Nat → String) (total : Nat) :
    ∀ (l : List Document) (k : Nat),
      (addChunkInfo genId total l k).map (fun c => c.metadata.get? "total_chunks") =
        List.replicate l.length (some (.nat total)) := by
  intro l
  induction l with
  | nil => intro k; rfl
  | cons c rest ih =>
    intro k
    simp [addChunkInfo, Dict.get?_chunkInfo_total, ih, List.replicate_succ]

/-- C1 amended: over one whole `process_documents` call (which may chunk
several documents together), the `chunk_index` values of the produced chunk
list form the dense 0-based sequence `0 .. total-1` in order, and every chunk
carries `total_chunks` equal to the total number of chunks produced by that
call — the enumeration is over the combined batch, not per document. -/
theorem process_documents_batch_dense (genId : Nat → String)
    (splitText : String → List String) (documents : List Document)
    (metadata : Option Dict) :
    ((process_documents genId splitText documents metadata).map
        fun c => c.metadata.get? "chunk_index") =
      (List.range (process_documents genId splitText documents metadata).length).map
        (fun i => some (.nat i)) ∧
    ((process_documents genId splitText documents metadata).map
        fun c => c.metadata.get? "total_chunks") =
      List.replicate (process_documents genId splitText documents metadata).length
        (some (.nat (process_documents genId splitText documents metadata).length)) := by
  have key : ∀ (l : List Document),
      ((addChunkInfo genId l.length l 0).map fun c => c.metadata.get? "chunk_index") =
        (List.range (addChunkInfo genId l.length l 0).length).map (fun i => some (.nat i)) ∧
      ((addChunkInfo genId l.length l 0).map fun c => c.metadata.get? "total_chunks") =
        List.replicate (addChunkInfo genId l.length l 0).length
          (some (.nat (addChunkInfo genId l.length l 0).length)) := by
    intro l
    rw [addChunkInfo_length, addChunkInfo_map_index, addChunkInfo_map_total,
      List.range_eq_range']
    exact ⟨rfl, rfl⟩
  exact key (split_documents splitText
    (if pyTruthyDict metadata then
      documents.map fun d => { d with metadata := d.metadata.update (metadata.getD []) }
    else documents))

/-- The per-document chunk-information property C1 asserts, as a decidable
check: the chunks whose metadata `id` equals `docId` carry `chunk_index`
values `0 .. n-1` (in order) and `total_chunks = n`, where `n` is the number
of chunks of that document. -/
def perDocChunkInfoClaim (cs : List Document) (docId : MVal) : Bool :=
  let mine := cs.filter fun c => c.metadata.get? "id" == some docId
  ((mine.map fun c => c.metadata.get? "chunk_index") ==
    (List.range mine.length).map fun i => some (.nat i)) &&
  (mine.all fun c => c.metadata.get? "total_chunks" == some (.nat mine.length))

/-- A two-document batch (document ids `doc1`, `doc2`) chunked together in one
`process_documents` call, with a splitting policy producing two chunks per
document and a constant uuid supply. -/
def twoDocChunks : List Document :=
  process_documents (fun _ => "c") (fun t => [t, t])
    [{ page_content := "aa", metadata := [("id", .str "doc1")] },
     { page_content := "bb", metadata := [("id", .str "doc2")] }] none

/-- C1 counterexample: when two documents are chunked together in one
`process_documents` call (two chunks each), the second document's chunks carry
`chunk_index` values 2 and 3 (not 0 and 1) and `total_chunks = 4` (not 2), so
the claimed per-document density fails. -/
theorem process_documents_per_doc_counterexample :
    ((twoDocChunks.filter fun c => c.metadata.get? "id" == some (.str "doc2")).map
        fun c => c.metadata.get? "chunk_index") = [some (.nat 2), some (.nat 3)] ∧
    ((twoDocChunks.filter fun c => c.metadata.get? "id" == some (.str "doc2")).map
        fun c => c.metadata.get? "total_chunks") = [some (.nat 4), some (.nat 4)] ∧
    perDocChunkInfoClaim twoDocChunks (.str "doc2") = false := by
  refine ⟨by decide, by decide, by decide⟩

/-! ## `vector_store.py`, lines 49–97: `VectorStoreManager.add_documents`

The method takes the dict-shaped documents the API routes build
(`{"page_content": ..., "metadata": ...}`), normalises them, embeds the texts
and inserts one row per document into the `documents` table. The whole body
sits in a `try/except Exception` that returns `False`; each row insert sits in
its own `try/except ... continue`. -/

/-- A dict-shaped input document as passed to `add_documents` by the API
routes: `doc.get("page_content")` / `doc.get("metadata")` give `None` for a
missing key. -/
structure PyDoc where
  page_content : Option String
  metadata : Option Dict
deriving DecidableEq, Repr

/-- Python truthiness of an `Optional[str]` (`None` and `""` are falsy). -/
def pyTruthyStr (s : Option String) : Bool :=
  match s with
  | none => false
  | some s => !s.isEmpty

/-- The metadata defaulting at `vector_store.py` lines 66–69: inject
`type="upload_file"` and `tenant_id="localhost"` only when absent. -/
def add_documents_defaults (m : Dict) : Dict :=
  let m1 := if (m.get? "type").isNone then m.set "type" (.str "upload_file") else m
  if (m1.get? "tenant_id").isNone then m1.set "tenant_id" (.str "localhost") else m1

/-- The per-document normalisation loop at `vector_store.py` lines 54–70.
For a truthy `page_content` the code assigns the *string itself* to `new_doc`
(`new_doc = doc.get("page_content")`), so the very next statement
(`new_doc.metadata is None`) raises `AttributeError`, which the method-level
`except` turns into `return False`. For a falsy payload it wraps an
empty-content `Document` around the original metadata (normalising a `None`
metadata to `{}`) and applies the `type`/`tenant_id` defaults. -/
def buildNewDocs : List PyDoc → Except String (List Document)
  | [] => .ok []
  | d :: rest =>
    if pyTruthyStr d.page_content then
      .error "AttributeError: str object has no attribute metadata"
    else do
      let ds ← buildNewDocs rest
      .ok ({ page_content := "",
             metadata := add_documents_defaults (d.metadata.getD []) } :: ds)

/-- A row of the `documents` table as built by the insert at
`vector_store.py` lines 82–87. -/
structure StoredRecord where
  id : String
  content : String
  metadata : Dict
  embedding : List Int
deriving DecidableEq, Repr

/-- The per-record insert loop at `vector_store.py` lines 80–91:
`for i, (text, metadata, embedding) in enumerate(zip(...))`, each iteration
drawing a fresh uuid4 for the row id; a failing `.insert(...).execute()`
(modelled by `insertOk i = false`) is caught by the inner `except` and the
loop `continue`s. Returns the rows actually inserted, in order. -/
def insertLoop (genId : Nat → String) (insertOk : Nat → Bool) :
    List (String × Dict × List Int) → Nat → List StoredRecord
  | [], _ => []
  | (t, m, e) :: rest, i =>
    if insertOk i then
      { id := genId i, content := t, metadata := m, embedding := e } ::
        insertLoop genId insertOk rest (i + 1)
    else
      insertLoop genId insertOk rest (i + 1)

/-- `VectorStoreManager.add_documents` (`vector_store.py` lines 49–97).
Returns the Python return value (`True`, or `False` when the body raised)
together with the rows inserted into the store. `genId` is the uuid4 supply
for the row ids, `embed` the embedding function, `insertOk i` whether the
`i`-th row insert succeeds. -/
def add_documents (genId : Nat → String) (embed : String → List Int)
    (insertOk : Nat → Bool) (documents : List PyDoc) :
    Bool × List StoredRecord :=
  match buildNewDocs documents with
  | .error _ => (false, [])
  | .ok newDocs =>
    let texts := newDocs.map Document.page_content
    let metadatas := newDocs.map Document.metadata
    let embeddings := texts.map embed
    (true, insertLoop genId insertOk (texts.zip (metadatas.zip embeddings)) 0)

/-- The row the insert loop builds from the `i`-th zipped
(text, metadata, embedding) triple. -/
def mkRecord (genId : Nat → String) (i : Nat) (p : String × Dict × List Int) :
    StoredRecord :=
  { id := genId i, content := p.1, metadata := p.2.1, embedding := p.2.2 }

theorem insertLoop_eq_filter (genId : Nat → String) (insertOk : Nat → Bool) :
    ∀ (triples : List (String × Dict × List Int)) (k : Nat),
      insertLoop genId insertOk triples k =
        ((triples.zip (List.range' k triples.length)).filter fun p => insertOk p.2).map
          fun p => mkRecord genId p.2 p.1 := by
  intro triples
  induction triples with
  | nil => intro k; rfl
  | cons t rest ih =>
    intro k
    obtain ⟨a, b, c⟩ := t
    rw [List.length_cons, List.range'_succ]
    by_cases h : insertOk k
    · simp [insertLoop, h, ih, mkRecord]
    · simp [insertLoop, h, ih]

theorem add_documents_triples (embed : String → List Int) (newDocs : List Document) :
    (newDocs.map Document.page_content).zip
        ((newDocs.map Document.metadata).zip ((newDocs.map Document.page_content).map embed)) =
      newDocs.map fun d => (d.page_content, d.metadata, embed d.page_content) := by
  rw [List.map_map, List.zip_map', List.zip_map']
  rfl

/-- C3 amended: every row the insert loop persists gets as its `id` the fresh
uuid4 drawn at its loop position (`genId i` for position `i`) — a function of
the uuid supply and the position only, independent of the chunk metadata; in
particular the `chunk_id` inside the metadata is not used as the row id. -/
theorem insertLoop_ids_from_supply (genId : Nat → String) (insertOk : Nat → Bool) :
    ∀ (triples : List (String × Dict × List Int)) (k : Nat),
      (insertLoop genId insertOk triples k).map (fun r => r.id) =
        ((List.range' k triples.length).filter insertOk).map genId := by
  intro triples
  induction triples with
  | nil => intro k; rfl
  | cons t rest ih =>
    intro k
    obtain ⟨a, b, c⟩ := t
    rw [List.length_cons, List.range'_succ]
    by_cases h : insertOk k
    · simp [insertLoop, h, ih]
    · simp [insertLoop, h, ih]

/-- C3 counterexample: a chunk whose metadata carries `chunk_id = "chunk-abc"`
is persisted under the freshly drawn row id `"fresh-1"`, not under its
`chunk_id`. -/
theorem stored_id_not_chunk_id_counterexample :
    ((add_documents (fun _ => "fresh-1") (fun _ => [0]) (fun _ => true)
          [{ page_content := some "",
             metadata := some [("chunk_id", .str "chunk-abc")] }]).2.map
        fun r => (r.id, r.metadata.get? "chunk_id")) =
      [("fresh-1", some (.str "chunk-abc"))] ∧
    ("fresh-1" : String) ≠ "chunk-abc" := by
  exact ⟨by rfl, by decide⟩

/-- C4 (code bug): the write path persists a Stored Record with an *empty*
content string when given an empty-payload document (first conjunct), and a
batch containing a document with non-empty text aborts wholesale with
`False` and nothing inserted, because `new_doc = doc.get("page_content")`
binds a string whose `.metadata` access raises (second conjunct) — the
opposite of rejecting empty payloads before embedding. -/
theorem add_documents_empty_content_bug :
    ((add_documents (fun _ => "u") (fun _ => [0]) (fun _ => true)
          [{ page_content := some "", metadata := some [] }]).2.map
        fun r => r.content) = [""] ∧
    add_documents (fun _ => "u") (fun _ => [0]) (fun _ => true)
        [{ page_content := some "hello", metadata := some [] }] =
      (false, []) := by
  exact ⟨by rfl, by rfl⟩

/-- C5 amended: per-record isolation holds — when the batch normalisation
succeeds, the method returns `True` and the store receives exactly the rows at
the positions whose insert succeeded (a failure at position `i` removes only
row `i`, rows `i+1..N` are still inserted); but the Python return value is the
bare boolean `True`, with per-record failures only logged — no
(succeeded_count, failed_chunk_ids) report is returned. -/
theorem add_documents_partial_failure (genId : Nat → String)
    (embed : String → List Int) (insertOk : Nat → Bool)
    (documents : List PyDoc) (newDocs : List Document)
    (h : buildNewDocs documents = .ok newDocs) :
    add_documents genId embed insertOk documents =
      (true,
        (((newDocs.map fun d => (d.page_content, d.metadata, embed d.page_content)).zip
            (List.range' 0 newDocs.length)).filter fun p => insertOk p.2).map
          fun p => mkRecord genId p.2 p.1) := by
  simp only [add_documents, h]
  rw [add_documents_triples, insertLoop_eq_filter, List.length_map]

/-- Five empty-payload input documents, tagged 0–4 in their metadata, for the
record-2-of-5-fails scenario. -/
def fiveDocBatch : List PyDoc :=
  [{ page_content := some "", metadata := some [("i", .nat 0)] },
   { page_content := some "", metadata := some [("i", .nat 1)] },
   { page_content := some "", metadata := some [("i", .nat 2)] },
   { page_content := some "", metadata := some [("i", .nat 3)] },
   { page_content := some "", metadata := some [("i", .nat 4)] }]

/-- The normalised form of `fiveDocBatch` after `buildNewDocs`. -/
def fiveNewDocs : List Document :=
  [{ page_content := "",
     metadata := [("i", .nat 0), ("type", .str "upload_file"), ("tenant_id", .str "localhost")] },
   { page_content := "",
     metadata := [("i", .nat 1), ("type", .str "upload_file"), ("tenant_id", .str "localhost")] },
   { page_content := "",
     metadata := [("i", .nat 2), ("type", .str "upload_file"), ("tenant_id", .str "localhost")] },
   { page_content := "",
     metadata := [("i", .nat 3), ("type", .str "upload_file"), ("tenant_id", .str "localhost")] },
   { page_content := "",
     metadata := [("i", .nat 4), ("type", .str "upload_file"), ("tenant_id", .str "localhost")] }]

/-- Witness for `add_documents_partial_failure`: batch of five where the
insert of record 2 (position 1) fails. -/
theorem add_documents_partial_failure_witness :
    buildNewDocs fiveDocBatch = .ok fiveNewDocs ∧
    add_documents (fun _ => "u") (fun _ => [0]) (fun j => !(j == 1)) fiveDocBatch =
      (true,
        (((fiveNewDocs.map fun d =>
              (d.page_content, d.metadata, (fun _ : String => ([0] : List Int)) d.page_content)).zip
            (List.range' 0 fiveNewDocs.length)).filter
            fun p => (fun j => !(j == 1)) p.2).map
          fun p => mkRecord (fun _ => "u") p.2 p.1) :=
  ⟨by rfl, add_documents_partial_failure _ _ _ _ _ (by rfl)⟩

/-- C5 counterexample: the method's return value is the bare `True` both when
record 2 of 5 fails and when all five succeed — the caller receives no
(succeeded_count, failed_chunk_ids) report; only the store contents (rows
tagged 0,2,3,4 versus 0–4) reveal the lost record. -/
theorem add_documents_no_report_counterexample :
    (add_documents (fun _ => "u") (fun _ => [0]) (fun j => !(j == 1)) fiveDocBatch).1 = true ∧
    (add_documents (fun _ => "u") (fun _ => [0]) (fun _ => true) fiveDocBatch).1 = true ∧
    ((add_documents (fun _ => "u") (fun _ => [0]) (fun j => !(j == 1)) fiveDocBatch).2.map
        fun r => r.metadata.get? "i") =
      [some (.nat 0), some (.nat 2), some (.nat 3), some (.nat 4)] ∧
    ((add_documents (fun _ => "u") (fun _ => [0]) (fun _ => true) fiveDocBatch).2.map
        fun r => r.metadata.get? "i") =
      [some (.nat 0), some (.nat 1), some (.nat 2), some (.nat 3), some (.nat 4)] := by
  exact ⟨by rfl, by rfl, by rfl, by rfl⟩

/-! ## Metadata accumulation across the write path (C9)

A chunk's metadata passes through four successive writes:
1. loader provenance (`document_loader.py` lines 47–53, `load_document_metadata`);
2. caller-supplied tags (`document_loader.py` line 67, `doc.metadata.update(metadata)`
   — skipped for a falsy tags dict, but `update` with an empty dict is the
   identity, so the unconditional composition below is equivalent);
3. chunk identity and position (`document_loader.py` lines 74–79);
4. storage defaults injected only when absent (`vector_store.py` lines 66–69,
   `add_documents_defaults`). -/

/-- Inserting `v0` at `k0` only when `k0` is absent preserves every existing
binding. -/
theorem Dict.get?_set_if_absent (m : Dict) (k0 : String) (v0 : MVal)
    {k : String} {v : MVal} (h : m.get? k = some v) :
    (if (m.get? k0).isNone then m.set k0 v0 else m).get? k = some v := by
  by_cases ht : (m.get? k0).isNone
  · rw [if_pos ht]
    by_cases hk : k = k0
    · subst hk; rw [h] at ht; simp at ht
    · rw [Dict.get?_set_ne _ _ (fun hE => hk hE.symm)]; exact h
  · rw [if_neg ht]; exact h

/-- The `type`/`tenant_id` defaulting never overwrites an existing binding. -/
theorem add_documents_defaults_preserve (m : Dict) {k : String} {v : MVal}
    (h : m.get? k = some v) : (add_documents_defaults m).get? k = some v := by
  unfold add_documents_defaults
  exact Dict.get?_set_if_absent _ _ _ (Dict.get?_set_if_absent _ _ _ h)

/-- The metadata a chunk's stored record carries after all four write-path
layers, in pipeline order. -/
def write_path_metadata (docId filePath fileName fileType : String)
    (tags : Dict) (chunkId : String) (i total : Nat) (loaderMeta : Dict) : Dict :=
  add_documents_defaults
    (((((load_document_metadata docId filePath fileName fileType loaderMeta).update
          tags).set "chunk_id" (.str chunkId)).set "chunk_index" (.nat i)).set
      "total_chunks" (.nat total))

/-- C9 counterexample: a caller tag `id = "custom"` overwrites the document
identity `id = "d-uuid"` that the loader layer had already set — the document
identity field is NOT immutable once set. -/
theorem caller_tag_overwrites_doc_id_counterexample :
    (write_path_metadata "d-uuid" "/f.txt" "f.txt" "txt" [("id", .str "custom")]
        "c-uuid" 0 1 []).get? "id" = some (.str "custom") ∧
    MVal.str "custom" ≠ MVal.str "d-uuid" := by
  exact ⟨by rfl, by decide⟩

/-- C9 amended: on a key collision the caller tag wins over the system
defaults and over every provenance-derived field *including the document
identity `id`*; the chunk identity and positional fields (`chunk_id`,
`chunk_index`, `total_chunks`) are written after the caller tags and therefore
always hold the chunk layer's values; the `type`/`tenant_id` defaults never
overwrite an existing binding. -/
theorem write_path_metadata_precedence (docId filePath fileName fileType : String)
    (tags : Dict) (chunkId : String) (i total : Nat) (loaderMeta : Dict)
    (k : String) (v : MVal) (hnd : tags.keys.Nodup) (hk : tags.get? k = some v)
    (h1 : k ≠ "chunk_id") (h2 : k ≠ "chunk_index") (h3 : k ≠ "total_chunks") :
    (write_path_metadata docId filePath fileName fileType tags chunkId i total
        loaderMeta).get? k = some v ∧
    (write_path_metadata docId filePath fileName fileType tags chunkId i total
        loaderMeta).get? "chunk_id" = some (.str chunkId) := by
  unfold write_path_metadata
  constructor
  · apply add_documents_defaults_preserve
    rw [Dict.get?_set_ne _ _ (fun hE => h3 hE.symm),
      Dict.get?_set_ne _ _ (fun hE => h2 hE.symm),
      Dict.get?_set_ne _ _ (fun hE => h1 hE.symm)]
    exact Dict.get?_update_of_get? _ _ hnd hk
  · apply add_documents_defaults_preserve
    rw [Dict.get?_set_ne _ _ (by decide), Dict.get?_set_ne _ _ (by decide),
      Dict.get?_set_self]

/-- Witness for `write_path_metadata_precedence`: caller tag `id = "custom"`
colliding with the provenance layer. -/
theorem write_path_metadata_precedence_witness :
    Dict.get? [("id", MVal.str "custom")] "id" = some (.str "custom") ∧
    (write_path_metadata "d-uuid" "/f.txt" "f.txt" "txt" [("id", .str "custom")]
        "c-uuid" 0 1 []).get? "id" = some (.str "custom") ∧
    (write_path_metadata "d-uuid" "/f.txt" "f.txt" "txt" [("id", .str "custom")]
        "c-uuid" 0 1 []).get? "chunk_id" = some (.str "c-uuid") := by
  refine ⟨by rfl, ?_, ?_⟩
  · exact (write_path_metadata_precedence "d-uuid" "/f.txt" "f.txt" "txt"
      [("id", .str "custom")] "c-uuid" 0 1 [] "id" (.str "custom")
      (by simp [Dict.keys]) (by rfl) (by decide) (by decide) (by decide)).1
  · exact (write_path_metadata_precedence "d-uuid" "/f.txt" "f.txt" "txt"
      [("id", .str "custom")] "c-uuid" 0 1 [] "id" (.str "custom")
      (by simp [Dict.keys]) (by rfl) (by decide) (by decide) (by decide)).2

/-! ## `vector_store.py` lines 99–137 and `rag_chain.py` lines 58–96

`similarity_search` wraps its whole body (filter resolution, query embedding,
the `match_documents` RPC, and building `Document`s from the response rows) in
one `try/except Exception` that returns `[]`. `RAGChain.answer_question`
wraps its whole body in one `try/except Exception` that returns the fixed
error dict. -/

/-- A row of the `match_documents` RPC response; `match["content"]` /
`match["metadata"]` raise `KeyError` when the key is missing (`none`). -/
structure RRow where
  content : Option String
  metadata : Option Dict
deriving DecidableEq

/-- The result-building loop at `vector_store.py` lines 125–131. -/
def buildSearchResults : List RRow → Except String (List Document)
  | [] => .ok []
  | r :: rest =>
    match r.content, r.metadata with
    | some c, some m => do
      let ds ← buildSearchResults rest
      .ok ({ page_content := c, metadata := m } :: ds)
    | _, _ => .error "KeyError"

/-- The body of `VectorStoreManager.similarity_search` inside the `try`
(`vector_store.py` lines 101–134): resolve the filter, embed the query
(`embedQ`), call the `match_documents` RPC (`rpc`, receiving the query
embedding and the resolved filter), and build the result documents. -/
def similarity_search_body (filter : Option Dict)
    (embedQ : Except String (List Int))
    (rpc : List Int → Dict → Except String (List RRow)) :
    Except String (List Document) := do
  let f := resolve_filter filter
  let qe ← embedQ
  let rows ← rpc qe f
  buildSearchResults rows

/-- `VectorStoreManager.similarity_search` (`vector_store.py` lines 99–137):
the `except Exception` handler turns any body failure into `[]`. -/
def similarity_search (filter : Option Dict)
    (embedQ : Except String (List Int))
    (rpc : List Int → Dict → Except String (List RRow)) : List Document :=
  match similarity_search_body filter embedQ rpc with
  | .ok res => res
  | .error _ => []

/-- The dict returned by the `RetrievalQA` chain call, read with
`result.get("result", ...)` and `result.get("source_documents", [])`. -/
structure ChainResult where
  result : Option String
  source_documents : Option (List Document)

/-- The answer/sources dict `RAGChain.answer_question` returns. -/
structure QAResult where
  answer : String
  sources : List String
deriving DecidableEq, Repr

/-- The fixed no-information fallback (`rag_chain.py` lines 71–74 and the
default at line 81). -/
def fallback_no_info : QAResult :=
  { answer := "I don't have enough information to answer that question.",
    sources := [] }

/-- The fixed error fallback returned by the `except` handler
(`rag_chain.py` lines 91–96). -/
def fallback_error : QAResult :=
  { answer := "An error occurred while processing your question.",
    sources := [] }

/-- `RAGChain.answer_question` (`rag_chain.py` lines 58–96). `search` is the
outcome of the `similarity_search` call, `runChain` the outcome of the
`RetrievalQA` chain call; an `.error` models the call raising, which the
method-level `except Exception` converts into `fallback_error`. The second
component records whether the generation chain was invoked on this request. -/
def answer_question (search : Except String (List Document))
    (runChain : Except String ChainResult) : QAResult × Bool :=
  match search with
  | .error _ => (fallback_error, false)
  | .ok docs =>
    if docs.isEmpty then (fallback_no_info, false)
    else
      match runChain with
      | .error _ => (fallback_error, true)
      | .ok res =>
        ({ answer :=
             res.result.getD "I don't have enough information to answer that question.",
           sources := (res.source_documents.getD []).map fun d => d.page_content },
         true)

/-- C2: any exception raised by the similarity search or by the generation
chain inside `answer_question` is caught by the method-level handler and
converted into the structured error fallback (error answer string, empty
sources); the error answer differs from the no-information answer, so the
failure is flagged, and no exceptional outcome exists — `answer_question` is
total into `QAResult`. -/
theorem answer_question_catches (search : Except String (List Document))
    (runChain : Except String ChainResult) (e : String)
    (h : search = .error e ∨
      (∃ docs, search = .ok docs ∧ docs ≠ [] ∧ runChain = .error e)) :
    (answer_question search runChain).1 = fallback_error ∧
    fallback_error.answer ≠ fallback_no_info.answer := by
  constructor
  · rcases h with h | ⟨docs, hs, hd, hc⟩
    · subst h; rfl
    · subst hs; subst hc
      cases docs with
      | nil => exact absurd rfl hd
      | cons d rest => rfl
  · decide

/-- Witness for `answer_question_catches`: the search call raises. -/
theorem answer_question_catches_witness :
    (answer_question (.error "boom") (.ok ⟨none, none⟩)).1 = fallback_error ∧
    fallback_error.answer ≠ fallback_no_info.answer :=
  answer_question_catches (.error "boom") (.ok ⟨none, none⟩) "boom" (Or.inl rfl)

/-- C8: when the similarity search returns an empty result set, the ask
operation returns exactly the fixed no-information fallback with empty
sources, and the generation chain is not invoked (flag `false`, and the
result is independent of `runChain` since it is universally quantified). -/
theorem answer_question_empty_short_circuit
    (search : Except String (List Document))
    (runChain : Except String ChainResult) (h : search = .ok []) :
    answer_question search runChain = (fallback_no_info, false) := by
  subst h; rfl

/-- Witness for `answer_question_empty_short_circuit`. -/
theorem answer_question_empty_short_circuit_witness :
    answer_question (.ok []) (.ok ⟨some "x", none⟩) = (fallback_no_info, false) :=
  answer_question_empty_short_circuit (.ok []) (.ok ⟨some "x", none⟩) rfl

/-- C10: any failure inside `similarity_search` (query-embedding failure, RPC
failure, malformed response row) is caught and surfaces as the empty result
list — indistinguishable at the interface from a successful search with no
matches — and through `answer_question` it yields the no-information fallback
with no error indication and no generation call. -/
theorem similarity_search_failure_indistinguishable (filter : Option Dict)
    (embedQ : Except String (List Int))
    (rpc : List Int → Dict → Except String (List RRow))
    (runChain : Except String ChainResult) (e : String)
    (h : similarity_search_body filter embedQ rpc = .error e) :
    similarity_search filter embedQ rpc = [] ∧
    answer_question (.ok (similarity_search filter embedQ rpc)) runChain =
      (fallback_no_info, false) := by
  have hs : similarity_search filter embedQ rpc = [] := by
    unfold similarity_search
    rw [h]
  exact ⟨hs, by rw [hs]; rfl⟩

/-- Witness for `similarity_search_failure_indistinguishable`: the query
embedding call raises. -/
theorem similarity_search_failure_indistinguishable_witness :
    similarity_search none (.error "net down") (fun _ _ => .ok []) = [] ∧
    answer_question
        (.ok (similarity_search none (.error "net down") (fun _ _ => .ok [])))
        (.ok ⟨none, none⟩) =
      (fallback_no_info, false) :=
  similarity_search_failure_indistinguishable none (.error "net down")
    (fun _ _ => .ok []) (.ok ⟨none, none⟩) "net down" rfl
